import Mathlib

/-!
Shallow embedding of the session/authentication lifecycle and rate-gated
request dispatcher of the capitaldotcom_api crate (src/endpoint.rs and
src/traits.rs, the revision the specification describes).

Wall-clock time is passed explicitly as a millisecond count (the caller
supplies the current instant, standing for chrono::Utc::now()), network
transport is passed explicitly as the outcome the HTTP client would
produce, and every endpoint returns, alongside its result and successor
state, the list of requests it actually dispatched, so that
"no network call" is a statement about that list.
-/

namespace Capital

/-- API error payload decoded from a non-200 body (responses.rs, APIError). -/
structure APIError where
  errorCode : String
deriving DecidableEq, Repr

/-- Error enum as used by src/endpoint.rs and src/traits.rs: the variants
are those constructed there (RequestingTooFast carrying the observed
chrono::TimeDelta in milliseconds, three-argument StatusCode), together
with the remaining variants declared in lib.rs. -/
inductive CapitalDotComError where
  | ReqwestError
  | JsonError
  | StatusCode (code : Nat) (apiError : APIError) (rawBody : String)
  | HeaderNotFound
  | FromUtf8Error
  | TooManyParameters
  | Unauthorized
  | MissingAuthorization
  | RequestingTooFast (deltaMs : Int)
deriving DecidableEq, Repr

/-- Session environment selector (endpoint.rs, SessionType). -/
inductive SessionType where
  | Live
  | Demo
deriving DecidableEq, Repr

/-- Response headers decoded into a string map (traits.rs,
headers_to_hashmap); modelled as an association list with exact-string
lookup, matching HashMap of String keys. -/
abbrev HeadersMap := List (String × String)

/-- Mutable client state (endpoint.rs, CapitalDotComApiEndpoints fields;
the reqwest client handle carries no observable state and is omitted;
the header map is the list of name-value pairs it holds). -/
structure ClientState where
  base_url : String
  x_cap_api_key : String
  x_security_token : String
  cst : String
  identifier : String
  password : String
  encryption_key : String
  auth_header_map : HeadersMap
  last_request_timestamp : Int
deriving DecidableEq, Repr

/-- endpoint.rs, get_session_url_from_sessiontype. -/
def get_session_url_from_sessiontype : SessionType → String
  | .Live => "https://api-capital.backend-capital.com"
  | .Demo => "https://demo-api-capital.backend-capital.com"

/-- endpoint.rs, CapitalDotComApiEndpoints::new; the construction instant
is passed in for chrono::Utc::now(). -/
def ClientState.new (session_type : SessionType)
    (x_cap_api_key identifier password : String) (now : Int) : ClientState where
  base_url := get_session_url_from_sessiontype session_type
  x_cap_api_key := x_cap_api_key
  x_security_token := ""
  cst := ""
  identifier := identifier
  password := password
  encryption_key := ""
  auth_header_map := []
  last_request_timestamp := now

/-- endpoint.rs, get_url: base url concatenated with the path. -/
def get_url (s : ClientState) (path : String) : String :=
  s.base_url ++ path

/-- HashMap::get(key).unwrap_or(String::new()): exact-keyed lookup with
the empty string for an absent key. -/
def headerGet (headers : HeadersMap) (key : String) : String :=
  (headers.lookup key).getD ""

/-- Validity of one character of an HTTP header value, as checked by
http::HeaderValue::from_str (byte 9, or bytes 32 and above except 127;
multi-byte UTF-8 characters consist solely of bytes 128 and above, so the
per-character check agrees with the per-byte one). -/
def validHeaderChar (c : Char) : Bool :=
  decide (c.toNat = 9 ∨ (32 ≤ c.toNat ∧ c.toNat ≠ 127))

/-- Validity of a whole string as an HTTP header value. -/
def validHeaderValue (s : String) : Bool :=
  s.data.all validHeaderChar

/-- endpoint.rs, update_auth: extracts the two token headers (absent
values become the empty string), then rebuilds the derived header map.
HeaderValue::from_str(..).expect(..) panics on a value that is not a
valid header value; the panic is modelled as none. -/
def update_auth (s : ClientState) (headers : HeadersMap) : Option ClientState :=
  let x_security_token := headerGet headers "X-SECURITY-TOKEN"
  let cst := headerGet headers "CST"
  if validHeaderValue x_security_token && validHeaderValue cst then
    some { s with
      x_security_token := x_security_token
      cst := cst
      auth_header_map :=
        [("X-SECURITY-TOKEN", x_security_token), ("CST", cst)] }
  else
    none

/-- endpoint.rs, update_last_request_timestamp. -/
def update_last_request_timestamp (s : ClientState) (now : Int) : ClientState :=
  { s with last_request_timestamp := now }

/-- endpoint.rs, get_time_since_last_request. -/
def get_time_since_last_request (s : ClientState) (now : Int) : Int :=
  now - s.last_request_timestamp

/-- endpoint.rs, next_request_available: computes the delta and compares
it against the literal 100 (the required timeout argument is accepted but
not consulted, exactly as in the source), returning Ok on a small delta
and RequestingTooFast on a large one. -/
def next_request_available (s : ClientState) (required_timeout_ms : Nat)
    (now : Int) : Except CapitalDotComError Unit :=
  let time_delta := get_time_since_last_request s now
  if time_delta < 100 then
    .ok ()
  else
    .error (.RequestingTooFast time_delta)

/-- endpoint.rs, ready_for_request. -/
def ready_for_request (s : ClientState) (now : Int) :
    Except CapitalDotComError Unit :=
  next_request_available s 100 now

/-- endpoint.rs, has_credentials: Ok when either token field is
non-empty, MissingAuthorization when both are empty. -/
def has_credentials (s : ClientState) : Except CapitalDotComError Unit :=
  if s.x_security_token ≠ "" ∨ s.cst ≠ "" then
    .ok ()
  else
    .error .MissingAuthorization

/-- An outgoing HTTP request as assembled by an endpoint method. -/
structure Request where
  method : String
  url : String
  headers : HeadersMap
  query : List (String × String)
deriving DecidableEq, Repr

/-- Outcome the transport would produce for a dispatched request:
the decoded response headers on success (the typed body is irrelevant to
the properties below), or the error request_data would return. -/
abbrev NetResult := Except CapitalDotComError (HeadersMap × Unit)

instance {ε α : Type} [DecidableEq ε] [DecidableEq α] :
    DecidableEq (Except ε α) := fun x y =>
  match x, y with
  | .ok a, .ok b =>
    if h : a = b then isTrue (h ▸ rfl) else isFalse fun hc => h (Except.ok.inj hc)
  | .error a, .error b =>
    if h : a = b then isTrue (h ▸ rfl) else isFalse fun hc => h (Except.error.inj hc)
  | .ok _, .error _ => isFalse fun hc => Except.noConfusion hc
  | .error _, .ok _ => isFalse fun hc => Except.noConfusion hc

/-- Result of running one endpoint method: its returned value, the
successor client state, and the requests actually handed to the
transport. -/
structure StepResult where
  result : NetResult
  state : ClientState
  dispatched : List Request
deriving DecidableEq, Repr

/-- endpoint.rs, get_server_time: gate, build, stamp, dispatch. -/
def get_server_time (s : ClientState) (now : Int) (net : NetResult) :
    StepResult :=
  match next_request_available s 100 now with
  | .error e => ⟨.error e, s, []⟩
  | .ok _ =>
    let req : Request :=
      { method := "GET", url := get_url s "/api/v1/time",
        headers := [], query := [] }
    ⟨net, update_last_request_timestamp s now, [req]⟩

/-- endpoint.rs, ping: credential check, gate, build with auth headers,
stamp, dispatch. -/
def ping (s : ClientState) (now : Int) (net : NetResult) : StepResult :=
  match has_credentials s with
  | .error e => ⟨.error e, s, []⟩
  | .ok _ =>
    match next_request_available s 100 now with
    | .error e => ⟨.error e, s, []⟩
    | .ok _ =>
      let req : Request :=
        { method := "GET", url := get_url s "/api/v1/ping",
          headers := s.auth_header_map, query := [] }
      ⟨net, update_last_request_timestamp s now, [req]⟩

/-- endpoint.rs, create_new_session: gate with the 1000 ms argument, POST
to the session/encryptionKey path with the API key header, then on a
successful exchange update_auth (whose expect may panic, modelled as
none) and only then stamp the timestamp; a failed exchange returns early
through the question-mark operator without stamping. -/
def create_new_session (s : ClientState) (now : Int) (net : NetResult) :
    Option StepResult :=
  match next_request_available s 1000 now with
  | .error e => some ⟨.error e, s, []⟩
  | .ok _ =>
    let req : Request :=
      { method := "POST", url := get_url s "/api/v1/session/encryptionKey",
        headers := [("X-CAP-API-KEY", s.x_cap_api_key)], query := [] }
    match net with
    | .error e => some ⟨.error e, s, [req]⟩
    | .ok (headers, body) =>
      match update_auth s headers with
      | none => none
      | some s1 =>
        some ⟨.ok (headers, body), update_last_request_timestamp s1 now, [req]⟩

/-- endpoint.rs, get_market_details loop body: append the identifier, then
append a comma whenever the index is at most length minus one (the
comparison the source writes, which holds at every index). -/
def epicQueryStep (len : Nat) (acc : String) (p : Nat × String) : String :=
  let acc := acc ++ p.2
  if p.1 ≤ len - 1 then acc ++ "," else acc

/-- endpoint.rs, get_market_details: the epics query string built by the
enumerate loop. -/
def buildEpicQuery (epics : List String) : String :=
  epics.enum.foldl (epicQueryStep epics.length) ""

/-- endpoint.rs, get_market_details: credential check, gate, the 50-epic
limit, the epics query string, and the query parameter list (searchTerm
alone when the epics string is empty). -/
def get_market_details (s : ClientState) (now : Int) (search_term : String)
    (epics : List String) (net : NetResult) : StepResult :=
  match has_credentials s with
  | .error e => ⟨.error e, s, []⟩
  | .ok _ =>
    match next_request_available s 100 now with
    | .error e => ⟨.error e, s, []⟩
    | .ok _ =>
      if epics.length > 50 then
        ⟨.error .TooManyParameters, s, []⟩
      else
        let epic_query := buildEpicQuery epics
        let q :=
          if epic_query = "" then
            [("searchTerm", search_term)]
          else
            [("searchTerm", search_term), ("epics", epic_query)]
        let req : Request :=
          { method := "GET", url := get_url s "/api/v1/markets",
            headers := s.auth_header_map, query := q }
        ⟨net, update_last_request_timestamp s now, [req]⟩

/-- Transport response as seen by traits.rs, get_body: the status code
and the body text (none when reading the body itself fails). -/
structure HttpResponse where
  status : Nat
  text : Option String
deriving DecidableEq, Repr

/-- traits.rs, get_body: on unreadable body a ReqwestError; on status 200
deserialize the success type (JsonError when that fails); otherwise
deserialize the APIError shape, propagating its JsonError through the
question-mark operator, and on success wrap status, decoded error and raw
body in StatusCode. Deserialization is passed in as the two decoders. -/
def get_body {T : Type} (decodeOk : String → Option T)
    (decodeErr : String → Option APIError) (response : HttpResponse) :
    Except CapitalDotComError T :=
  match response.text with
  | none => .error .ReqwestError
  | some body_raw =>
    if response.status = 200 then
      match decodeOk body_raw with
      | some body => .ok body
      | none => .error .JsonError
    else
      match decodeErr body_raw with
      | some apiErr => .error (.StatusCode response.status apiErr body_raw)
      | none => .error .JsonError

/-- Discriminator used to state that a decoding outcome is a StatusCode
error. -/
def isStatusCodeError {T : Type} : Except CapitalDotComError T → Bool
  | .error (.StatusCode _ _ _) => true
  | _ => false

/-- Derived-header-map invariant: the cached map is exactly the header
pair projection of the current token fields. -/
def authInv (s : ClientState) : Prop :=
  s.auth_header_map = [("X-SECURITY-TOKEN", s.x_security_token), ("CST", s.cst)]

instance (s : ClientState) : Decidable (authInv s) :=
  inferInstanceAs (Decidable (_ = _))

/-- Concrete demo-environment client fresh from the constructor. -/
def sampleState (ts : Int) : ClientState :=
  ClientState.new .Demo "key" "id" "pw" ts

/-- Concrete client holding a security token, as after a login. -/
def authedState (ts : Int) : ClientState :=
  { sampleState ts with x_security_token := "tok" }

end Capital

namespace Capital

/-- C1: the rate gate does not reject a call if and only if the elapsed
time since the last request is below the configured minimum interval. On
the contrary, next_request_available accepts exactly when the delta is
below 100 ms and rejects (with RequestingTooFast carrying the delta)
exactly when it is 100 ms or more, for ordinary operations and for the
1000 ms session-creation interval alike, since the interval argument is
never consulted; a gate rejection does still prevent any dispatch. -/
theorem c1_rate_gate_inverted :
    next_request_available (sampleState 0) 100 50 = .ok () ∧
    next_request_available (sampleState 0) 100 200 =
      .error (.RequestingTooFast 200) ∧
    next_request_available (sampleState 0) 1000 50 = .ok () ∧
    next_request_available (sampleState 0) 1000 5000 =
      .error (.RequestingTooFast 5000) ∧
    (get_server_time (sampleState 0) 200 (.ok ([], ()))).dispatched = [] :=
  ⟨rfl, rfl, rfl, rfl, rfl⟩

/-- C2: has_credentials returns MissingAuthorization exactly when both
token fields are empty and Ok exactly when either is non-empty, and the
embedded operations that require authorization (ping, market search)
return that error with the state untouched and nothing dispatched when
both fields are empty. -/
theorem c2_missing_authorization (s : ClientState) :
    (has_credentials s = .error .MissingAuthorization ↔
      (s.x_security_token = "" ∧ s.cst = "")) ∧
    (has_credentials s = .ok () ↔ ¬(s.x_security_token = "" ∧ s.cst = "")) ∧
    (s.x_security_token = "" → s.cst = "" →
      ∀ (now : Int) (net : NetResult) (st : String) (eps : List String),
        ping s now net = ⟨.error .MissingAuthorization, s, []⟩ ∧
        get_market_details s now st eps net =
          ⟨.error .MissingAuthorization, s, []⟩) := by
  by_cases hx : s.x_security_token = "" <;> by_cases hc : s.cst = "" <;>
    simp [has_credentials, ping, get_market_details, hx, hc]

/-- C2 witness: a fresh client has both token fields empty, and ping on
it fails fast with MissingAuthorization, dispatching nothing. -/
theorem c2_missing_authorization_witness :
    ping (sampleState 0) 5 (.ok ([], ())) =
      ⟨.error .MissingAuthorization, sampleState 0, []⟩ :=
  ((c2_missing_authorization (sampleState 0)).2.2 rfl rfl 5 (.ok ([], ()))
    "" []).1

/-- C3 counterexample: the extraction is not case-insensitive. A header
mapping that carries the security token under the lower-case spelling of
the fixed name yields the empty string, not the carried value. -/
theorem c3_claim_false_case_sensitive :
    (update_auth (sampleState 0)
        [("x-security-token", "abc"), ("CST", "c")]).map
      (fun s' => s'.x_security_token) = some "" ∧
    ("" : String) ≠ "abc" :=
  ⟨rfl, by decide⟩

/-- C3 as amended: update_auth extracts the two tokens by exact,
case-sensitive lookup of the fixed names X-SECURITY-TOKEN and CST, treats
an absent (or differently-cased) key as the empty string rather than an
error, and replaces both token fields together with the derived header
map, which afterwards is exactly the header-pair projection of the new
tokens. -/
theorem c3_update_auth_exact (s : ClientState) (headers : HeadersMap)
    (s' : ClientState) (h : update_auth s headers = some s') :
    s'.x_security_token = (headers.lookup "X-SECURITY-TOKEN").getD "" ∧
    s'.cst = (headers.lookup "CST").getD "" ∧
    s'.auth_header_map =
      [("X-SECURITY-TOKEN", s'.x_security_token), ("CST", s'.cst)] ∧
    (headers.lookup "X-SECURITY-TOKEN" = none → s'.x_security_token = "") ∧
    (headers.lookup "CST" = none → s'.cst = "") := by
  simp only [update_auth, headerGet] at h
  split at h
  · injection h with h'
    subst h'
    refine ⟨rfl, rfl, rfl, ?_, ?_⟩ <;> intro hnone <;> simp [hnone]
  · exact Option.noConfusion h

/-- C3 result of updating a fresh demo client from a response supplying
only the security token. -/
def c3SampleUpdated : ClientState :=
  { sampleState 0 with
    x_security_token := "abc"
    cst := ""
    auth_header_map := [("X-SECURITY-TOKEN", "abc"), ("CST", "")] }

/-- C3 witness: a response supplying only X-SECURITY-TOKEN leaves cst
overwritten with the empty string while the security token is taken
verbatim. -/
theorem c3_update_auth_exact_witness :
    c3SampleUpdated.cst = "" ∧ c3SampleUpdated.x_security_token =
      (([("X-SECURITY-TOKEN", "abc")] : HeadersMap).lookup
        "X-SECURITY-TOKEN").getD "" :=
  ⟨(c3_update_auth_exact (sampleState 0) [("X-SECURITY-TOKEN", "abc")]
      c3SampleUpdated (by decide)).2.2.2.2 rfl,
   (c3_update_auth_exact (sampleState 0) [("X-SECURITY-TOKEN", "abc")]
      c3SampleUpdated (by decide)).1⟩

/-- C4: with credentials present and the rate gate passing, a market
search over more than 50 identifiers fails with TooManyParameters,
leaving the state untouched and dispatching nothing, while a search over
at most 50 identifiers dispatches exactly one request. -/
theorem c4_market_search_limit (s : ClientState) (now : Int)
    (search_term : String) (epics : List String) (net : NetResult)
    (hcred : has_credentials s = .ok ())
    (hgate : next_request_available s 100 now = .ok ()) :
    (50 < epics.length →
      get_market_details s now search_term epics net =
        ⟨.error .TooManyParameters, s, []⟩) ∧
    (epics.length ≤ 50 →
      (get_market_details s now search_term epics net).dispatched.length
        = 1) := by
  constructor
  · intro h
    simp [get_market_details, hcred, hgate, h]
  · intro h
    have h' : ¬ epics.length > 50 := by omega
    simp [get_market_details, hcred, hgate, h']

/-- C4 witness: on a logged-in client inside the passing-gate window, a
51-identifier search is rejected without dispatch and a one-identifier
search dispatches one request. -/
theorem c4_market_search_limit_witness :
    get_market_details (authedState 0) 0 "t" (List.replicate 51 "E")
        (.ok ([], ())) = ⟨.error .TooManyParameters, authedState 0, []⟩ ∧
    (get_market_details (authedState 0) 0 "t" ["A"]
        (.ok ([], ()))).dispatched.length = 1 :=
  ⟨(c4_market_search_limit (authedState 0) 0 "t" (List.replicate 51 "E")
      (.ok ([], ())) (by decide) (by decide)).1 (by decide),
   (c4_market_search_limit (authedState 0) 0 "t" ["A"]
      (.ok ([], ())) (by decide) (by decide)).2 (by decide)⟩

/-- C5: the epics query string carries a comma after every identifier,
the last one included, because the loop guard (index at most length
minus one) holds at every index; so two identifiers produce a trailing
comma, contradicting the no-trailing-comma join, while the empty list
still yields the searchTerm-only query. -/
theorem c5_epics_join_trailing_comma :
    buildEpicQuery ["A", "B"] = "A,B," ∧
    buildEpicQuery [] = "" ∧
    (get_market_details (authedState 0) 0 "t" ["A", "B"]
        (.ok ([], ()))).dispatched.map Request.query =
      [[("searchTerm", "t"), ("epics", "A,B,")]] ∧
    (get_market_details (authedState 0) 0 "t" []
        (.ok ([], ()))).dispatched.map Request.query =
      [[("searchTerm", "t")]] ∧
    "A,B," ≠ "A,B" :=
  ⟨rfl, rfl, rfl, rfl, by decide⟩

end Capital

namespace Capital

/-- C6 counterexample: a non-200 response whose body does not decode as
the structured API error yields a bare JsonError, not a StatusCode error,
so the raw body is not preserved in the returned error. -/
theorem c6_claim_false_raw_body_dropped :
    get_body (fun _ => some ()) (fun _ => none) ⟨500, some "garbage"⟩ =
      .error .JsonError ∧
    isStatusCodeError
      (get_body (fun _ => some ()) (fun _ => none)
        ⟨500, some "garbage"⟩) = false :=
  ⟨rfl, rfl⟩

/-- C6 as amended: with a readable body, status 200 yields the decoded
success value (or JsonError when decoding fails); a non-200 status with a
decodable error payload yields StatusCode carrying the status, the
decoded error and the raw body; a non-200 status with an undecodable
payload yields JsonError, which does not carry the raw body but is still
distinct from the transport-failure ReqwestError returned when the body
cannot be read at all. -/
theorem c6_get_body_cases {T : Type} (decodeOk : String → Option T)
    (decodeErr : String → Option APIError) (response : HttpResponse)
    (raw : String) (h : response.text = some raw) :
    (response.status = 200 → ∀ t, decodeOk raw = some t →
      get_body decodeOk decodeErr response = .ok t) ∧
    (response.status = 200 → decodeOk raw = none →
      get_body decodeOk decodeErr response = .error .JsonError) ∧
    (response.status ≠ 200 → ∀ e, decodeErr raw = some e →
      get_body decodeOk decodeErr response =
        .error (.StatusCode response.status e raw)) ∧
    (response.status ≠ 200 → decodeErr raw = none →
      get_body decodeOk decodeErr response = .error .JsonError) ∧
    get_body decodeOk decodeErr ⟨response.status, none⟩ =
      .error .ReqwestError ∧
    (CapitalDotComError.JsonError ≠ .ReqwestError) := by
  refine ⟨?_, ?_, ?_, ?_, rfl, by decide⟩
  · intro h200 t ht
    simp [get_body, h, h200, ht]
  · intro h200 ht
    simp [get_body, h, h200, ht]
  · intro h200 e he
    simp [get_body, h, h200, he]
  · intro h200 he
    simp [get_body, h, h200, he]

/-- C6 witness: a 500 response with a decodable error body surfaces
StatusCode carrying the status, the decoded error and the raw body. -/
theorem c6_get_body_cases_witness :
    get_body (fun _ => some ()) (fun r => some ⟨r⟩) ⟨500, some "oops"⟩ =
      .error (.StatusCode 500 ⟨"oops"⟩ "oops") :=
  (c6_get_body_cases (fun _ => some ()) (fun r => some ⟨r⟩)
    ⟨500, some "oops"⟩ "oops" rfl).2.2.1 (by decide) ⟨"oops"⟩ rfl

/-- C7: the session-creation operation is a POST, but it is sent to the
session/encryptionKey path under the environment base URL, not to the
fixed session path. -/
theorem c7_session_post_path :
    ((create_new_session (sampleState 0) 0 (.ok ([], ()))).map
      fun r => r.dispatched.map Request.url) =
        some [get_url (sampleState 0) "/api/v1/session/encryptionKey"] ∧
    ((create_new_session (sampleState 0) 0 (.ok ([], ()))).map
      fun r => r.dispatched.map Request.method) = some ["POST"] ∧
    get_url (sampleState 0) "/api/v1/session/encryptionKey" ≠
      get_url (sampleState 0) "/api/v1/session" :=
  ⟨rfl, rfl, by decide⟩

/-- C8 counterexample: a create_new_session call whose dispatched request
fails returns through the early-exit operator before the timestamp
update, so the request was dispatched yet LastRequestTimestamp keeps its
old value instead of the current instant. -/
theorem c8_claim_false_failed_session_not_stamped :
    create_new_session (sampleState 0) 50 (.error .ReqwestError) =
      some ⟨.error .ReqwestError, sampleState 0,
        [⟨"POST", get_url (sampleState 0) "/api/v1/session/encryptionKey",
          [("X-CAP-API-KEY", "key")], []⟩]⟩ ∧
    (sampleState 0).last_request_timestamp ≠ 50 :=
  ⟨rfl, by decide⟩

/-- C8 as amended: the rate-gate check is pure and a call rejected by it
(or by the credential check) leaves the whole state unchanged and
dispatches nothing; an ordinary operation that passes the gate sets
LastRequestTimestamp to the current instant whether its dispatched
request succeeds or fails; create_new_session alone skips the timestamp
update when its dispatched request fails. -/
theorem c8_timestamp_discipline (s : ClientState) (now : Int)
    (net : NetResult) :
    (∀ e, next_request_available s 100 now = .error e →
      get_server_time s now net = ⟨.error e, s, []⟩) ∧
    (∀ e, has_credentials s = .error e →
      ping s now net = ⟨.error e, s, []⟩) ∧
    (∀ e, has_credentials s = .ok () →
      next_request_available s 100 now = .error e →
      ping s now net = ⟨.error e, s, []⟩) ∧
    (next_request_available s 100 now = .ok () →
      (get_server_time s now net).state =
        update_last_request_timestamp s now ∧
      (get_server_time s now net).dispatched.length = 1 ∧
      ((ping s now net).state = s ∨
        (ping s now net).state = update_last_request_timestamp s now)) ∧
    (∀ e, next_request_available s 1000 now = .error e →
      create_new_session s now net = some ⟨.error e, s, []⟩) ∧
    (∀ e, next_request_available s 1000 now = .ok () →
      net = .error e →
      create_new_session s now net = some ⟨.error e, s,
        [⟨"POST", get_url s "/api/v1/session/encryptionKey",
          [("X-CAP-API-KEY", s.x_cap_api_key)], []⟩]⟩) := by
  refine ⟨?_, ?_, ?_, ?_, ?_, ?_⟩
  · intro e he
    simp [get_server_time, he]
  · intro e he
    simp [ping, he]
  · intro e hc he
    simp [ping, hc, he]
  · intro hok
    refine ⟨?_, ?_, ?_⟩
    · simp [get_server_time, hok]
    · simp [get_server_time, hok]
    · cases hc : has_credentials s with
      | error e => exact Or.inl (by simp [ping, hc])
      | ok u => cases u; exact Or.inr (by simp [ping, hc, hok])
  · intro e he
    simp [create_new_session, he]
  · intro e hok hnet
    simp [create_new_session, hok, hnet]

/-- C8 witness: at 200 ms of elapsed time the gate (as written) rejects
and leaves the fresh state untouched with nothing dispatched, and at
50 ms it passes and the timestamp is stamped to the current instant even
though the dispatched request fails. -/
theorem c8_timestamp_discipline_witness :
    get_server_time (sampleState 0) 200 (.ok ([], ())) =
      ⟨.error (.RequestingTooFast 200), sampleState 0, []⟩ ∧
    (get_server_time (sampleState 0) 50
      (.error .ReqwestError)).state =
        update_last_request_timestamp (sampleState 0) 50 :=
  ⟨(c8_timestamp_discipline (sampleState 0) 200 (.ok ([], ()))).1
      (.RequestingTooFast 200) rfl,
   ((c8_timestamp_discipline (sampleState 0) 50
      (.error .ReqwestError)).2.2.2.1 rfl).1⟩

end Capital

namespace Capital

/-- C9 counterexample: at construction the cached header map is the
empty map while both token fields are the empty string, so it is not the
two-entry header-pair projection of the current tokens: the invariant is
not established by construction. -/
theorem c9_claim_false_at_construction :
    (ClientState.new .Demo "k" "i" "p" 0).auth_header_map = [] ∧
    (ClientState.new .Demo "k" "i" "p" 0).x_security_token = "" ∧
    (ClientState.new .Demo "k" "i" "p" 0).cst = "" ∧
    ¬ authInv (ClientState.new .Demo "k" "i" "p" 0) :=
  ⟨rfl, rfl, rfl, by decide⟩

/-- C9 as amended: every successful update_auth establishes the
projection invariant in the same step as the token change, and every
embedded operation preserves it (none of them touches the map or the
tokens except through update_auth); only construction fails it, starting
from the empty header map instead of the projection of the empty
tokens. -/
theorem c9_auth_inv_preserved :
    (∀ (s : ClientState) (headers : HeadersMap) (s' : ClientState),
      update_auth s headers = some s' → authInv s') ∧
    (∀ (s : ClientState) (now : Int) (net : NetResult), authInv s →
      authInv (get_server_time s now net).state) ∧
    (∀ (s : ClientState) (now : Int) (net : NetResult), authInv s →
      authInv (ping s now net).state) ∧
    (∀ (s : ClientState) (now : Int) (st : String) (eps : List String)
      (net : NetResult), authInv s →
      authInv (get_market_details s now st eps net).state) ∧
    (∀ (s : ClientState) (now : Int) (net : NetResult) (r : StepResult),
      create_new_session s now net = some r → authInv s →
      authInv r.state) := by
  have hupd : ∀ (s : ClientState) (headers : HeadersMap) (s' : ClientState),
      update_auth s headers = some s' → authInv s' := by
    intro s headers s' h
    simp only [update_auth, headerGet] at h
    split at h
    · injection h with h'
      subst h'
      rfl
    · exact Option.noConfusion h
  refine ⟨hupd, ?_, ?_, ?_, ?_⟩
  · intro s now net hs
    unfold get_server_time
    split
    · exact hs
    · exact hs
  · intro s now net hs
    unfold ping
    split
    · exact hs
    · split
      · exact hs
      · exact hs
  · intro s now st eps net hs
    unfold get_market_details
    split
    · exact hs
    · split
      · exact hs
      · split
        · exact hs
        · exact hs
  · intro s now net r h hs
    unfold create_new_session at h
    split at h
    · injection h with h'
      subst h'
      exact hs
    · split at h
      · injection h with h'
        subst h'
        exact hs
      · split at h
        · exact Option.noConfusion h
        · next s1 hs1 =>
            injection h with h'
            subst h'
            have h1 := hupd _ _ _ hs1
            simpa [authInv, update_last_request_timestamp] using h1

/-- C9 state of a client after a login that delivered both token
headers. -/
def c9LoggedIn : ClientState :=
  { sampleState 0 with
    x_security_token := "tok"
    cst := "acc"
    auth_header_map := [("X-SECURITY-TOKEN", "tok"), ("CST", "acc")] }

/-- C9 witness: on a logged-in client satisfying the invariant, a ping
leaves the invariant intact. -/
theorem c9_auth_inv_preserved_witness :
    authInv (ping c9LoggedIn 5 (.ok ([], ()))).state :=
  c9_auth_inv_preserved.2.2.1 c9LoggedIn 5 (.ok ([], ())) (by decide)

/-- C10: update_auth is not total: a response whose security-token value
contains a newline makes the HeaderValue conversion panic (modelled as
none), and session creation on such a response panics likewise; under
the precondition that both extracted values are valid header-value
strings the panic branch is unreachable. -/
theorem c10_update_auth_panic :
    update_auth (sampleState 0)
      [("X-SECURITY-TOKEN", "a\nb"), ("CST", "c")] = none ∧
    create_new_session (sampleState 0) 0
      (.ok ([("X-SECURITY-TOKEN", "a\nb")], ())) = none ∧
    (∀ (s : ClientState) (headers : HeadersMap),
      validHeaderValue (headerGet headers "X-SECURITY-TOKEN") = true →
      validHeaderValue (headerGet headers "CST") = true →
      (update_auth s headers).isSome = true) := by
  refine ⟨rfl, rfl, ?_⟩
  intro s headers h1 h2
  simp [update_auth, h1, h2]

/-- C10 witness: ordinary token values are valid header values, so
update_auth completes without panicking. -/
theorem c10_update_auth_panic_witness :
    (update_auth (sampleState 0)
      [("X-SECURITY-TOKEN", "abc"), ("CST", "d")]).isSome = true :=
  c10_update_auth_panic.2.2 (sampleState 0)
    [("X-SECURITY-TOKEN", "abc"), ("CST", "d")] (by decide) (by decide)

end Capital
